import Mathlib

/-!
# Verification of the `bevy_entitiles` tilemap core

Shallow embedding of `src/tilemap/map.rs` (the `TilemapBuilder` / `Tilemap`
API: `get`, `set`, `remove`, `fill_rect`, `index_to_world`,
`is_out_of_tilemap_uvec`, `build`) and of `src/ldtk/layer/mod.rs`
(`LdtkLayers::set_tile` and the z-index assignment in
`LdtkLayers::apply_all`), together with proofs of the specification's
claims about them.

Conventions:
* Rust `Entity` ids are natural numbers handed out by a counter.
* Bevy `Commands` are modelled as an explicit state recording the entity
  counter, the tile records spawned so far, and the despawn log.
* A Rust operation that can `panic!` returns `Option` (`none` = panic) or
  `Except` with a structured error value.
* `f32` fields that the claims evaluate only at exactly-representable
  values (`tile_render_size`, `translation`) are modelled as rationals.
-/

namespace EntiTiles

/-- Bevy entity id. -/
abbrev Entity := Nat

/-- Tile record payload carried by a `TileBuilder` besides its index
(texture index, color, ... - opaque for the storage claims). -/
abbrev TilePayload := Nat

/-- Rust `TileBuilder` of `src/tilemap/tile.rs` as used by `map.rs`:
the target cell `index` (a `UVec2`) plus the rest of the tile record. -/
structure TileBuilder where
  index : Nat × Nat
  payload : TilePayload
  deriving Repr, DecidableEq

/-- The world-side effects of `bevy::Commands` that `map.rs` performs:
spawning tile entities (`TileBuilder::build`) and despawning them. -/
structure CommandsState where
  /-- Next fresh entity id. -/
  counter : Nat
  /-- Log of spawned tile entities with the record they were built from
  (newest first). -/
  spawnedTiles : List (Entity × TileBuilder)
  /-- Log of `commands.entity(e).despawn()` calls (newest first). -/
  despawned : List Entity
  deriving Repr, DecidableEq

/-- Rust `commands.spawn_empty()`: hand out a fresh entity id. -/
def CommandsState.spawnEmpty (c : CommandsState) : Entity × CommandsState :=
  (c.counter, { c with counter := c.counter + 1 })

/-- Rust `commands.entity(e).despawn()`. -/
def CommandsState.despawn (c : CommandsState) (e : Entity) : CommandsState :=
  { c with despawned := e :: c.despawned }

/-- The tile record attached to entity `e`, if any. -/
def CommandsState.recordOf (c : CommandsState) (e : Entity) : Option TileBuilder :=
  c.spawnedTiles.lookup e

/-- Modelled from the spec: `TileBuilder::build` (in `src/tilemap/tile.rs`,
which is not among the provided sources) spawns a fresh entity carrying the
tile record described by the builder and returns its id; per spec section 3
a tile record belongs to exactly one cell and carries the builder's data. -/
def TileBuilder.build (b : TileBuilder) (c : CommandsState) : Entity × CommandsState :=
  (c.counter,
    { c with
      counter := c.counter + 1
      spawnedTiles := (c.counter, b) :: c.spawnedTiles })

/-- Rust `TileType` (square / isometric diamond), from `src/tilemap/tile.rs` as
matched on by `Tilemap::index_to_world`. -/
inductive TileType where
  | square
  | isometricDiamond
  deriving Repr, DecidableEq

/-- The `Tilemap` component of `src/tilemap/map.rs` (lines 147-162).
`texture`, `filter_mode` and `aabb` are never read by the operations the
claims are about; the texture is kept as an opaque id and the other two are
omitted. -/
structure Tilemap where
  id : Entity
  tileType : TileType
  /-- Rust `size : UVec2`. -/
  size : Nat × Nat
  /-- Rust `tile_size : UVec2`. -/
  tileSize : Nat × Nat
  /-- Rust `tile_render_size : Vec2`. -/
  tileRenderSize : ℚ × ℚ
  renderChunkSize : Nat
  texture : Option Nat
  /-- Rust `tiles : Vec<Option<Entity>>`, row-major, length `size.x * size.y`. -/
  tiles : List (Option Entity)
  flip : Nat
  /-- Rust `translation : Vec2`. -/
  translation : ℚ × ℚ
  zOrder : Nat
  deriving Repr, DecidableEq

namespace Tilemap

/-- Rust `Tilemap::is_out_of_tilemap_uvec` (map.rs lines 251-253):
`index.x >= self.size.x || index.y >= self.size.y`. -/
def is_out_of_tilemap_uvec (t : Tilemap) (index : Nat × Nat) : Bool :=
  index.1 ≥ t.size.1 || index.2 ≥ t.size.2

/-- The flat `Vec` index `(index.y * self.size.x + index.x) as usize`. -/
def flatIndex (t : Tilemap) (index : Nat × Nat) : Nat :=
  index.2 * t.size.1 + index.1

/-- Rust `Tilemap::get_unchecked` (map.rs lines 174-176):
`self.tiles[(index.y * self.size.x + index.x) as usize]`.
The outer `Option` is `none` when the `Vec` indexing would panic. -/
def get_unchecked (t : Tilemap) (index : Nat × Nat) : Option (Option Entity) :=
  t.tiles.get? (t.flatIndex index)

/-- Rust `Tilemap::get` (map.rs lines 166-172): bounds check, then unchecked
read. `some none` is Rust's `None` ("absent"); outer `none` is a panic. -/
def get (t : Tilemap) (index : Nat × Nat) : Option (Option Entity) :=
  if t.is_out_of_tilemap_uvec index then some none
  else t.get_unchecked index

/-- Rust `Tilemap::set_unchecked` (map.rs lines 189-196): despawn the previous
tile entity at the cell if present, build the new tile, store its entity.
`none` models the panic of an out-of-range `Vec` access. -/
def set_unchecked (t : Tilemap) (c : CommandsState) (tile_builder : TileBuilder) :
    Option (Tilemap × CommandsState) :=
  let idx := t.flatIndex tile_builder.index
  match t.tiles.get? idx with
  | none => none
  | some prev =>
    let c1 := match prev with
      | some previous => c.despawn previous
      | none => c
    let (new_tile, c2) := tile_builder.build c1
    some ({ t with tiles := t.tiles.set idx (some new_tile) }, c2)

/-- Rust `Tilemap::set` (map.rs lines 181-187): silently return on
out-of-bounds coordinates, otherwise `set_unchecked`. -/
def set (t : Tilemap) (c : CommandsState) (tile_builder : TileBuilder) :
    Option (Tilemap × CommandsState) :=
  if t.is_out_of_tilemap_uvec tile_builder.index then some (t, c)
  else t.set_unchecked c tile_builder

/-- Rust `Tilemap::remove_unchecked` (map.rs lines 207-211): despawn the stored
entity (`.unwrap()` panics when the cell is empty) and clear the cell. -/
def remove_unchecked (t : Tilemap) (c : CommandsState) (index : Nat × Nat) :
    Option (Tilemap × CommandsState) :=
  let idx := t.flatIndex index
  match t.tiles.get? idx with
  | none => none
  | some none => none
  | some (some e) =>
    some ({ t with tiles := t.tiles.set idx none }, c.despawn e)

/-- Rust `Tilemap::remove` (map.rs lines 199-205): return silently when the
coordinate is out of bounds or the cell is empty, else `remove_unchecked`. -/
def remove (t : Tilemap) (c : CommandsState) (index : Nat × Nat) :
    Option (Tilemap × CommandsState) :=
  if t.is_out_of_tilemap_uvec index then some (t, c)
  else
    match t.get index with
    | none => none
    | some none => some (t, c)
    | some (some _) => t.remove_unchecked c index

end Tilemap

/-- Modelled from the spec: `FillArea` (in `src/math`, which is not among
the provided sources) denotes an inclusive rectangular region
`origin..=dest` of a tilemap (spec section 4.1: "an inclusive rectangular
region"); its constructor takes the target tilemap and admits only regions
inside it. -/
structure FillArea where
  origin : Nat × Nat
  dest : Nat × Nat
  deriving Repr, DecidableEq

/-- The coordinates visited by the nested loops
`for y in area.origin.y..=area.dest.y { for x in area.origin.x..=area.dest.x }`
of `Tilemap::fill_rect`, in visiting order. -/
def FillArea.coords (area : FillArea) : List (Nat × Nat) :=
  (List.range (area.dest.2 + 1 - area.origin.2)).flatMap fun dy =>
    (List.range (area.dest.1 + 1 - area.origin.1)).map fun dx =>
      (area.origin.1 + dx, area.origin.2 + dy)

namespace Tilemap

/-- The loop body sequence of `Tilemap::fill_rect`: `set_unchecked` with
the builder's index overridden by each visited coordinate in order. -/
def fillRectAux (tile_builder : TileBuilder) :
    List (Nat × Nat) → Tilemap → CommandsState → Option (Tilemap × CommandsState)
  | [], t, c => some (t, c)
  | coord :: rest, t, c =>
    match t.set_unchecked c { tile_builder with index := coord } with
    | none => none
    | some (t1, c1) => fillRectAux tile_builder rest t1 c1

/-- Rust `Tilemap::fill_rect` (map.rs lines 216-229). -/
def fill_rect (t : Tilemap) (c : CommandsState) (area : FillArea)
    (tile_builder : TileBuilder) : Option (Tilemap × CommandsState) :=
  fillRectAux tile_builder area.coords t c

/-- The specification's reading of `fill_rect` ("applies `set` for every
coordinate in an inclusive rectangular region", spec section 4.1): the same
loop but through the bounds-checked `set`. Used to compare batch and point
mutation. -/
def setEachAux (tile_builder : TileBuilder) :
    List (Nat × Nat) → Tilemap → CommandsState → Option (Tilemap × CommandsState)
  | [], t, c => some (t, c)
  | coord :: rest, t, c =>
    match t.set c { tile_builder with index := coord } with
    | none => none
    | some (t1, c1) => setEachAux tile_builder rest t1 c1

/-- Point-mutation loop over an area, per the spec's words. -/
def setEachSpec (t : Tilemap) (c : CommandsState) (area : FillArea)
    (tile_builder : TileBuilder) : Option (Tilemap × CommandsState) :=
  setEachAux tile_builder area.coords t c

/-- Rust `Tilemap::index_to_world` (map.rs lines 237-249), over rationals. -/
def index_to_world (t : Tilemap) (index : Nat × Nat) : ℚ × ℚ :=
  let x : ℚ := index.1
  let y : ℚ := index.2
  match t.tileType with
  | .square =>
      ((x + 1/2) * t.tileRenderSize.1 + t.translation.1,
       (y + 1/2) * t.tileRenderSize.2 + t.translation.2)
  | .isometricDiamond =>
      ((x - y) / 2 * t.tileRenderSize.1 + t.translation.1,
       (x + y + 1) / 2 * t.tileRenderSize.2 + t.translation.2)

end Tilemap

/-- Modelled from the spec:
`RenderChunkStorage::calculate_render_chunk_count` (in
`src/render/chunk.rs`, which is not among the provided sources). Per spec
section 3 every tile belongs to the chunk `floor(cell / chunk_size)`, so a
map of `size` cells per axis spans `ceil(size / chunk_size)` chunks per
axis. -/
def calculate_render_chunk_count (size : Nat × Nat) (chunkSize : Nat) : Nat × Nat :=
  ((size.1 + chunkSize - 1) / chunkSize, (size.2 + chunkSize - 1) / chunkSize)

/-- Rust `TilemapBuilder` of `src/tilemap/map.rs` (lines 14-26); `filter_mode`
is omitted (never read by the modelled operations). -/
structure TilemapBuilder where
  tileType : TileType
  size : Nat × Nat
  tileSize : Nat × Nat
  tileRenderSize : ℚ × ℚ
  renderChunkSize : Nat
  texture : Option Nat
  translation : ℚ × ℚ
  zOrder : Nat
  flip : Nat
  safetyCheck : Bool
  deriving Repr, DecidableEq

namespace TilemapBuilder

/-- Rust `TilemapBuilder::new` (map.rs lines 35-49). -/
def new (ty : TileType) (size : Nat × Nat) (tileRenderSize : ℚ × ℚ) : TilemapBuilder where
  tileType := ty
  size := size
  tileSize := (0, 0)
  tileRenderSize := tileRenderSize
  texture := none
  renderChunkSize := 32
  translation := (0, 0)
  zOrder := 10
  flip := 0
  safetyCheck := true

/-- Rust `TilemapBuilder::with_z_order` (map.rs lines 53-56). -/
def with_z_order (b : TilemapBuilder) (zOrder : Nat) : TilemapBuilder :=
  { b with zOrder := zOrder }

/-- Rust `TilemapBuilder::with_render_chunk_size` (map.rs lines 59-62). -/
def with_render_chunk_size (b : TilemapBuilder) (size : Nat) : TilemapBuilder :=
  { b with renderChunkSize := size }

/-- Rust `TilemapBuilder::with_translation` (map.rs lines 71-74). -/
def with_translation (b : TilemapBuilder) (translation : ℚ × ℚ) : TilemapBuilder :=
  { b with translation := translation }

/-- Rust `TilemapBuilder::with_disabled_safety_check` (map.rs lines 97-100). -/
def with_disabled_safety_check (b : TilemapBuilder) : TilemapBuilder :=
  { b with safetyCheck := false }

/-- Rust `TilemapBuilder::build` (map.rs lines 104-144): when the safety check
is enabled and the render-chunk count exceeds 100, `panic!` (modelled as
`none`); otherwise spawn an entity and produce the `Tilemap` with an
all-empty tile vector. -/
def build (b : TilemapBuilder) (c : CommandsState) :
    Option (Entity × Tilemap × CommandsState) :=
  let chunkCount := calculate_render_chunk_count b.size b.renderChunkSize
  if b.safetyCheck && decide (chunkCount.1 * chunkCount.2 > 100) then none
  else
    let (e, c1) := c.spawnEmpty
    some (e,
      { id := e
        tileType := b.tileType
        size := b.size
        tileSize := b.tileSize
        tileRenderSize := b.tileRenderSize
        renderChunkSize := b.renderChunkSize
        texture := b.texture
        tiles := List.replicate (b.size.1 * b.size.2) none
        flip := b.flip
        translation := b.translation
        zOrder := b.zOrder }, c1)

end TilemapBuilder

namespace Tilemap

/-- What a reader of the storage can observe at a coordinate: absence, or
the tile record of the stored entity. Outer `none` = a panic inside `get`. -/
def Observe (t : Tilemap) (c : CommandsState) (index : Nat × Nat) :
    Option (Option TileBuilder) :=
  (t.get index).map fun oe => oe.bind c.recordOf

/-- Well-formedness tying a tilemap to the command state that built it:
the tile vector has its allocated length `size.x * size.y` and every stored
entity id was handed out by the counter. `TilemapBuilder::build` establishes
it and every storage operation preserves it. -/
def Linked (t : Tilemap) (c : CommandsState) : Prop :=
  t.tiles.length = t.size.1 * t.size.2 ∧
    ∀ oe ∈ t.tiles, ∀ e, oe = some e → e < c.counter

theorem is_out_false_iff (t : Tilemap) (i : Nat × Nat) :
    t.is_out_of_tilemap_uvec i = false ↔ i.1 < t.size.1 ∧ i.2 < t.size.2 := by
  simp [is_out_of_tilemap_uvec, Nat.not_le]

theorem flatIndex_lt (t : Tilemap) {i : Nat × Nat}
    (h1 : i.1 < t.size.1) (h2 : i.2 < t.size.2) :
    t.flatIndex i < t.size.1 * t.size.2 := by
  have h3 : i.2 * t.size.1 + i.1 < i.2 * t.size.1 + t.size.1 := by omega
  have h4 : i.2 * t.size.1 + t.size.1 = (i.2 + 1) * t.size.1 := by ring
  have h5 : (i.2 + 1) * t.size.1 ≤ t.size.2 * t.size.1 :=
    Nat.mul_le_mul_right _ (by omega)
  calc t.flatIndex i < (i.2 + 1) * t.size.1 := by rw [← h4]; exact h3
    _ ≤ t.size.2 * t.size.1 := h5
    _ = t.size.1 * t.size.2 := Nat.mul_comm _ _

theorem flatIndex_inj (t : Tilemap) {i j : Nat × Nat}
    (hi : i.1 < t.size.1) (hj : j.1 < t.size.1)
    (h : t.flatIndex i = t.flatIndex j) : i = j := by
  have hx : (i.2 * t.size.1 + i.1) % t.size.1 = (j.2 * t.size.1 + j.1) % t.size.1 := by
    simpa [flatIndex] using congrArg (· % t.size.1) h
  have hmi : (i.2 * t.size.1 + i.1) % t.size.1 = i.1 := by
    rw [Nat.add_comm, Nat.add_mul_mod_self_right]; exact Nat.mod_eq_of_lt hi
  have hmj : (j.2 * t.size.1 + j.1) % t.size.1 = j.1 := by
    rw [Nat.add_comm, Nat.add_mul_mod_self_right]; exact Nat.mod_eq_of_lt hj
  have h1 : i.1 = j.1 := by rw [← hmi, ← hmj, hx]
  have hpos : 0 < t.size.1 := by omega
  have h2 : i.2 = j.2 := by
    have := h
    simp only [flatIndex, h1] at this
    have := Nat.eq_of_mul_eq_mul_right hpos (by omega : i.2 * t.size.1 = j.2 * t.size.1)
    exact this
  exact Prod.ext h1 h2

/-- Rust `despawn` does not affect which records entities carry. -/
theorem CommandsState.recordOf_despawn (c : CommandsState) (e x : Entity) :
    (c.despawn e).recordOf x = c.recordOf x := rfl

/-- A fresh spawn does not change the record of an older entity. -/
theorem CommandsState.recordOf_cons_ne (c : CommandsState) (b : TileBuilder)
    (k : Nat) (sp : List Entity) (x : Entity) (h : x ≠ c.counter) :
    CommandsState.recordOf
      { counter := k, spawnedTiles := (c.counter, b) :: c.spawnedTiles,
        despawned := sp } x = c.recordOf x := by
  have hx : (x == c.counter) = false := by simpa using h
  simp [CommandsState.recordOf, List.lookup, hx]

/-- The fresh spawn carries the builder's record. -/
theorem CommandsState.recordOf_cons_self (c : CommandsState) (b : TileBuilder)
    (k : Nat) (sp : List Entity) :
    CommandsState.recordOf
      { counter := k, spawnedTiles := (c.counter, b) :: c.spawnedTiles,
        despawned := sp } c.counter = some b := by
  simp [CommandsState.recordOf, List.lookup]

/-- How `set` rewrites the state at an in-bounds coordinate, by the cases
of the previous cell content. -/
theorem set_eq_cases (t : Tilemap) (c : CommandsState) (b : TileBuilder)
    (hlen : t.tiles.length = t.size.1 * t.size.2)
    (hin : t.is_out_of_tilemap_uvec b.index = false) :
    t.set c b = some
      ({ t with tiles := t.tiles.set (t.flatIndex b.index) (some c.counter) },
       { counter := c.counter + 1,
         spawnedTiles := (c.counter, b) :: c.spawnedTiles,
         despawned :=
           match t.tiles.get? (t.flatIndex b.index) with
           | some (some p) => p :: c.despawned
           | _ => c.despawned }) := by
  obtain ⟨h1, h2⟩ := (t.is_out_false_iff b.index).1 hin
  have hidx : t.flatIndex b.index < t.tiles.length := by
    rw [hlen]; exact t.flatIndex_lt h1 h2
  obtain ⟨prev, hprev⟩ : ∃ prev, t.tiles.get? (t.flatIndex b.index) = some prev :=
    ⟨_, List.get?_eq_get hidx⟩
  have hprev2 : t.tiles[t.flatIndex b.index]? = some prev := by
    rw [← List.get?_eq_getElem?]; exact hprev
  cases prev with
  | none =>
      simp [set, hin, set_unchecked, hprev2, TileBuilder.build, CommandsState.despawn]
  | some p =>
      simp [set, hin, set_unchecked, hprev2, TileBuilder.build, CommandsState.despawn]

/-- Rust `set` never panics on a linked state, and preserves the size,
the links, and never decreases the counter. -/
theorem set_total (t : Tilemap) (c : CommandsState) (b : TileBuilder)
    (h : t.Linked c) :
    ∃ t1 c1, t.set c b = some (t1, c1) ∧ t1.size = t.size ∧
      t1.Linked c1 ∧ c.counter ≤ c1.counter := by
  by_cases hout : t.is_out_of_tilemap_uvec b.index = true
  · exact ⟨t, c, by simp [set, hout], rfl, h, le_rfl⟩
  · have hin : t.is_out_of_tilemap_uvec b.index = false := by
      simpa using hout
    rw [t.set_eq_cases c b h.1 hin]
    refine ⟨_, _, rfl, rfl, ⟨?_, ?_⟩, by simp⟩
    · simpa using h.1
    · intro oe hoe e he
      rcases List.mem_or_eq_of_mem_set hoe with hmem | heq
      · exact Nat.lt_succ_of_lt (h.2 oe hmem e he)
      · subst heq
        injection he with he
        subst he
        exact Nat.lt_succ_self _

theorem is_out_congr (t1 t : Tilemap) (i : Nat × Nat) (h : t1.size = t.size) :
    t1.is_out_of_tilemap_uvec i = t.is_out_of_tilemap_uvec i := by
  simp [is_out_of_tilemap_uvec, h]

/-- Out-of-bounds reads observe absence, whatever the state. -/
theorem Observe_oob (t : Tilemap) (c : CommandsState) (i : Nat × Nat)
    (h : t.is_out_of_tilemap_uvec i = true) : t.Observe c i = some none := by
  simp [Observe, get, h]

/-- In-bounds reads observe the flat cell content through `recordOf`. -/
theorem Observe_inb (t : Tilemap) (c : CommandsState) (i : Nat × Nat)
    (hin : t.is_out_of_tilemap_uvec i = false) :
    t.Observe c i =
      (t.tiles.get? (t.flatIndex i)).map fun oe => oe.bind c.recordOf := by
  simp [Observe, get, get_unchecked, hin]

theorem flatIndex_congr (t1 t : Tilemap) (i : Nat × Nat) (h : t1.size = t.size) :
    t1.flatIndex i = t.flatIndex i := by
  simp [flatIndex, h]

/-- After `set`, the written cell observes the tile built from the
builder. -/
theorem Observe_set_self (t : Tilemap) (c : CommandsState) (b : TileBuilder)
    (t1 : Tilemap) (c1 : CommandsState) (h : t.Linked c)
    (hin : t.is_out_of_tilemap_uvec b.index = false)
    (hset : t.set c b = some (t1, c1)) :
    t1.Observe c1 b.index = some (some b) := by
  rw [t.set_eq_cases c b h.1 hin] at hset
  simp only [Option.some.injEq, Prod.mk.injEq] at hset
  obtain ⟨ht1, hc1⟩ := hset
  have hsize : t1.size = t.size := by rw [← ht1]
  have htiles : t1.tiles = t.tiles.set (t.flatIndex b.index) (some c.counter) := by
    rw [← ht1]
  have hsp : c1.spawnedTiles = (c.counter, b) :: c.spawnedTiles := by rw [← hc1]
  obtain ⟨h1, h2⟩ := (t.is_out_false_iff b.index).1 hin
  have hidx : t.flatIndex b.index < t.tiles.length := by
    rw [h.1]; exact t.flatIndex_lt h1 h2
  have hin1 : t1.is_out_of_tilemap_uvec b.index = false := by
    rw [is_out_congr t1 t _ hsize]; exact hin
  rw [Observe_inb t1 c1 b.index hin1, flatIndex_congr t1 t _ hsize, htiles]
  rw [show (t.tiles.set (t.flatIndex b.index) (some c.counter)).get? (t.flatIndex b.index) = some (some c.counter) from by rw [List.get?_eq_getElem?]; exact List.getElem?_set_eq_of_lt _ hidx]
  simp [CommandsState.recordOf, hsp, List.lookup]

/-- Rust `set` leaves the observation of every other in-bounds cell
unchanged. -/
theorem Observe_set_other (t : Tilemap) (c : CommandsState) (b : TileBuilder)
    (t1 : Tilemap) (c1 : CommandsState) (i : Nat × Nat) (h : t.Linked c)
    (hi : t.is_out_of_tilemap_uvec i = false) (hne : i ≠ b.index)
    (hset : t.set c b = some (t1, c1)) :
    t1.Observe c1 i = t.Observe c i := by
  by_cases hout : t.is_out_of_tilemap_uvec b.index = true
  · rw [set, if_pos hout] at hset
    simp only [Option.some.injEq, Prod.mk.injEq] at hset
    obtain ⟨rfl, rfl⟩ := hset
    rfl
  · have hbin : t.is_out_of_tilemap_uvec b.index = false := by simpa using hout
    rw [t.set_eq_cases c b h.1 hbin] at hset
    simp only [Option.some.injEq, Prod.mk.injEq] at hset
    obtain ⟨ht1, hc1⟩ := hset
    have hsize : t1.size = t.size := by rw [← ht1]
    have htiles : t1.tiles = t.tiles.set (t.flatIndex b.index) (some c.counter) := by
      rw [← ht1]
    have hsp : c1.spawnedTiles = (c.counter, b) :: c.spawnedTiles := by rw [← hc1]
    obtain ⟨hi1, hi2⟩ := (t.is_out_false_iff i).1 hi
    obtain ⟨hb1, hb2⟩ := (t.is_out_false_iff b.index).1 hbin
    have hne2 : t.flatIndex b.index ≠ t.flatIndex i := fun hcontra =>
      hne (t.flatIndex_inj hb1 hi1 hcontra).symm
    have hi' : t1.is_out_of_tilemap_uvec i = false := by
      rw [is_out_congr t1 t _ hsize]; exact hi
    rw [Observe_inb t1 c1 i hi', flatIndex_congr t1 t _ hsize, htiles]
    rw [show (t.tiles.set (t.flatIndex b.index) (some c.counter)).get? (t.flatIndex i) = t.tiles.get? (t.flatIndex i) from by rw [List.get?_eq_getElem?, List.get?_eq_getElem?]; exact List.getElem?_set_ne hne2]
    rw [Observe_inb t c i hi]
    cases hoe : t.tiles.get? (t.flatIndex i) with
    | none => rfl
    | some oe =>
      cases oe with
      | none => rfl
      | some e =>
        have he : e < c.counter := h.2 (some e) (List.get?_mem hoe) e rfl
        have hne3 : (e == c.counter) = false :=
          beq_eq_false_iff_ne.mpr (Nat.ne_of_lt he)
        simp [CommandsState.recordOf, hsp, List.lookup, hne3]

/-- Derived facts about a successful `set`. -/
theorem set_props {t : Tilemap} {c : CommandsState} {b : TileBuilder}
    {t1 : Tilemap} {c1 : CommandsState} (h : t.Linked c)
    (hset : t.set c b = some (t1, c1)) :
    t1.size = t.size ∧ t1.Linked c1 ∧ c.counter ≤ c1.counter := by
  obtain ⟨t2, c2, hset2, hs, hl, hm⟩ := t.set_total c b h
  rw [hset] at hset2
  simp only [Option.some.injEq, Prod.mk.injEq] at hset2
  obtain ⟨rfl, rfl⟩ := hset2
  exact ⟨hs, hl, hm⟩

end Tilemap

/-- A sequence of `Tilemap::set` calls, applied in order. -/
def applySets : List TileBuilder → Tilemap → CommandsState →
    Option (Tilemap × CommandsState)
  | [], t, c => some (t, c)
  | b :: rest, t, c =>
    match t.set c b with
    | none => none
    | some (t1, c1) => applySets rest t1 c1

theorem applySets_total (ops : List TileBuilder) (t : Tilemap)
    (c : CommandsState) (h : t.Linked c) :
    ∃ t1 c1, applySets ops t c = some (t1, c1) ∧ t1.size = t.size ∧
      t1.Linked c1 ∧ c.counter ≤ c1.counter := by
  induction ops generalizing t c with
  | nil => exact ⟨t, c, rfl, rfl, h, le_rfl⟩
  | cons b rest ih =>
    obtain ⟨t2, c2, hset, hs, hl, hm⟩ := t.set_total c b h
    obtain ⟨t1, c1, happ, hs1, hl1, hm1⟩ := ih t2 c2 hl
    exact ⟨t1, c1, by simp [applySets, hset, happ], by rw [hs1, hs], hl1,
      le_trans hm hm1⟩

/-- Sets whose target indexes avoid `i` do not change what `i` observes. -/
theorem applySets_observe_preserved (ops : List TileBuilder) (t : Tilemap)
    (c : CommandsState) (t1 : Tilemap) (c1 : CommandsState) (i : Nat × Nat)
    (h : t.Linked c) (hi : t.is_out_of_tilemap_uvec i = false)
    (hne : ∀ b ∈ ops, b.index ≠ i)
    (happ : applySets ops t c = some (t1, c1)) :
    t1.Observe c1 i = t.Observe c i := by
  induction ops generalizing t c with
  | nil =>
    simp only [applySets, Option.some.injEq, Prod.mk.injEq] at happ
    obtain ⟨rfl, rfl⟩ := happ
    rfl
  | cons b rest ih =>
    cases hset : t.set c b with
    | none => simp [applySets, hset] at happ
    | some tc =>
      obtain ⟨t2, c2⟩ := tc
      simp only [applySets, hset] at happ
      obtain ⟨hs, hl, hm⟩ := Tilemap.set_props h hset
      have hi2 : t2.is_out_of_tilemap_uvec i = false := by
        rw [Tilemap.is_out_congr t2 t _ hs]; exact hi
      rw [ih t2 c2 hl hi2 (fun b2 hb2 => hne b2 (List.mem_cons_of_mem b hb2)) happ]
      exact Tilemap.Observe_set_other t c b t2 c2 i h hi
        (hne b (List.mem_cons_self b rest)).symm hset

/-- Last-write-wins: after a sequence of sets whose last write at `i` used
builder `b`, cell `i` observes the tile built from `b`. -/
theorem applySets_lww (pre post : List TileBuilder) (b : TileBuilder)
    (t : Tilemap) (c : CommandsState) (t1 : Tilemap) (c1 : CommandsState)
    (i : Nat × Nat) (h : t.Linked c)
    (hi : t.is_out_of_tilemap_uvec i = false) (hb : b.index = i)
    (hpost : ∀ b2 ∈ post, b2.index ≠ i)
    (happ : applySets (pre ++ b :: post) t c = some (t1, c1)) :
    t1.Observe c1 i = some (some b) := by
  induction pre generalizing t c with
  | nil =>
    simp only [List.nil_append] at happ
    cases hset : t.set c b with
    | none => simp [applySets, hset] at happ
    | some tc =>
      obtain ⟨t2, c2⟩ := tc
      simp only [applySets, hset] at happ
      obtain ⟨hs, hl, hm⟩ := Tilemap.set_props h hset
      have hbin : t.is_out_of_tilemap_uvec b.index = false := by rw [hb]; exact hi
      have hi2 : t2.is_out_of_tilemap_uvec i = false := by
        rw [Tilemap.is_out_congr t2 t _ hs]; exact hi
      rw [applySets_observe_preserved post t2 c2 t1 c1 i hl hi2 hpost happ]
      rw [← hb]
      exact Tilemap.Observe_set_self t c b t2 c2 h hbin hset
  | cons b0 pre ih =>
    rw [List.cons_append] at happ
    cases hset : t.set c b0 with
    | none => simp [applySets, hset] at happ
    | some tc =>
      obtain ⟨t2, c2⟩ := tc
      simp only [applySets, hset] at happ
      obtain ⟨hs, hl, hm⟩ := Tilemap.set_props h hset
      have hi2 : t2.is_out_of_tilemap_uvec i = false := by
        rw [Tilemap.is_out_congr t2 t _ hs]; exact hi
      exact ih t2 c2 hl hi2 happ

namespace Tilemap

/-- On in-bounds coordinate lists, the unchecked batch loop of
`fill_rect` coincides with the bounds-checked point loop. -/
theorem fillRectAux_eq_setEachAux (b : TileBuilder) (coords : List (Nat × Nat))
    (t : Tilemap) (c : CommandsState) (h : t.Linked c)
    (hin : ∀ coord ∈ coords, t.is_out_of_tilemap_uvec coord = false) :
    fillRectAux b coords t c = setEachAux b coords t c := by
  induction coords generalizing t c with
  | nil => rfl
  | cons coord rest ih =>
    have hinc : t.is_out_of_tilemap_uvec coord = false :=
      hin coord (List.mem_cons_self coord rest)
    have hset_eq : t.set c { b with index := coord } =
        t.set_unchecked c { b with index := coord } := by
      simp [Tilemap.set, hinc]
    simp only [fillRectAux, setEachAux, hset_eq]
    cases hstep : t.set_unchecked c { b with index := coord } with
    | none => rfl
    | some tc =>
      obtain ⟨t2, c2⟩ := tc
      obtain ⟨hs, hl, hm⟩ := Tilemap.set_props h (hset_eq.trans hstep)
      exact ih t2 c2 hl fun coord2 hc2 => by
        rw [Tilemap.is_out_congr t2 t _ hs]
        exact hin coord2 (List.mem_cons_of_mem coord hc2)

/-- The point loop is the `applySets` sequence of the per-cell builders. -/
theorem setEachAux_eq_applySets (b : TileBuilder) (coords : List (Nat × Nat))
    (t : Tilemap) (c : CommandsState) :
    setEachAux b coords t c =
      applySets (coords.map fun coord => { b with index := coord }) t c := by
  induction coords generalizing t c with
  | nil => rfl
  | cons coord rest ih =>
    simp only [List.map_cons, setEachAux, applySets]
    cases hset : t.set c { b with index := coord } with
    | none => rfl
    | some tc =>
      obtain ⟨t2, c2⟩ := tc
      exact ih t2 c2

end Tilemap

/-- Every member of a list has a last occurrence. -/
theorem exists_split_last {α : Type} (l : List α) (a : α) (h : a ∈ l) :
    ∃ s u, l = s ++ a :: u ∧ a ∉ u := by
  induction l with
  | nil => cases h
  | cons x xs ih =>
    by_cases hx : a ∈ xs
    · obtain ⟨s, u, hsu, hnu⟩ := ih hx
      exact ⟨x :: s, u, by rw [List.cons_append, hsu], hnu⟩
    · have hax : a = x := by
        rcases List.mem_cons.mp h with h1 | h2
        · exact h1
        · exact absurd h2 hx
      exact ⟨[], xs, by rw [hax, List.nil_append], hx⟩

/-- Bounds of the coordinates visited by `fill_rect`. -/
theorem FillArea.coords_mem (area : FillArea) {coord : Nat × Nat}
    (h : coord ∈ area.coords) :
    area.origin.1 ≤ coord.1 ∧ coord.1 ≤ area.dest.1 ∧
      area.origin.2 ≤ coord.2 ∧ coord.2 ≤ area.dest.2 := by
  simp only [FillArea.coords, List.mem_flatMap, List.mem_map,
    List.mem_range] at h
  obtain ⟨dy, hdy, dx, hdx, hc⟩ := h
  obtain ⟨h1, h2⟩ := Prod.mk.injEq .. ▸ hc
  omega

/-! ### Concrete fixtures used by the witnesses -/

/-- A concrete 4×4 square tilemap with an empty tile vector, as
`TilemapBuilder::build` produces it. -/
def demoMap : Tilemap where
  id := 99
  tileType := .square
  size := (4, 4)
  tileSize := (16, 16)
  tileRenderSize := (16, 16)
  renderChunkSize := 32
  texture := none
  tiles := List.replicate 16 none
  flip := 0
  translation := (0, 0)
  zOrder := 10

/-- A fresh command state. -/
def c0 : CommandsState := ⟨0, [], []⟩

theorem demoMap_linked : demoMap.Linked c0 := by
  constructor
  · rfl
  · intro oe hoe e he
    rw [List.eq_of_mem_replicate hoe] at he
    cases he

def b0demo : TileBuilder := ⟨(1, 2), 5⟩
def bmainDemo : TileBuilder := ⟨(1, 2), 7⟩
def b2demo : TileBuilder := ⟨(0, 0), 9⟩

/-- Result of the three-set sequence used by the C1 witness. -/
def demoSeq : Tilemap × CommandsState :=
  (applySets [b0demo, bmainDemo, b2demo] demoMap c0).getD (demoMap, c0)

/-- One `set` of `bmainDemo` on the fresh map. -/
def demoOnce : Tilemap × CommandsState :=
  (demoMap.set c0 bmainDemo).getD (demoMap, c0)

/-- A second `set` of `bmainDemo` on top of `demoOnce`. -/
def demoTwice : Tilemap × CommandsState :=
  (demoOnce.1.set demoOnce.2 bmainDemo).getD (demoMap, c0)

/-! ### Claim theorems -/

/-- Claim C1: for every in-bounds coordinate, after any sequence of `set`
calls whose last call at that coordinate used builder `b`, `get` observes
the tile built from `b` (last-write-wins); and repeating `set` with the
same builder leaves the observable storage state unchanged
(idempotent-safe). -/
theorem set_get_last_write_wins :
    (∀ (t : Tilemap) (c : CommandsState) (i : Nat × Nat)
        (pre post : List TileBuilder) (b : TileBuilder) (t1 : Tilemap)
        (c1 : CommandsState),
        t.Linked c → t.is_out_of_tilemap_uvec i = false → b.index = i →
        (∀ b2 ∈ post, b2.index ≠ i) →
        applySets (pre ++ b :: post) t c = some (t1, c1) →
        t1.Observe c1 i = some (some b)) ∧
    (∀ (t : Tilemap) (c : CommandsState) (b : TileBuilder) (t1 : Tilemap)
        (c1 : CommandsState) (t2 : Tilemap) (c2 : CommandsState),
        t.Linked c → t.set c b = some (t1, c1) → t1.set c1 b = some (t2, c2) →
        ∀ j, t2.Observe c2 j = t1.Observe c1 j) := by
  constructor
  · intro t c i pre post b t1 c1 h hi hb hpost happ
    exact applySets_lww pre post b t c t1 c1 i h hi hb hpost happ
  · intro t c b t1 c1 t2 c2 h hset1 hset2 j
    obtain ⟨hs1, hl1, hm1⟩ := Tilemap.set_props h hset1
    obtain ⟨hs2, hl2, hm2⟩ := Tilemap.set_props hl1 hset2
    by_cases hj : t1.is_out_of_tilemap_uvec j = true
    · rw [Tilemap.Observe_oob t2 c2 j (by rw [Tilemap.is_out_congr t2 t1 _ hs2]; exact hj),
        Tilemap.Observe_oob t1 c1 j hj]
    · have hj1 : t1.is_out_of_tilemap_uvec j = false := by simpa using hj
      by_cases hjb : j = b.index
      · subst hjb
        rw [Tilemap.Observe_set_self t1 c1 b t2 c2 hl1 hj1 hset2,
          Tilemap.Observe_set_self t c b t1 c1 h
            (by rw [← Tilemap.is_out_congr t1 t _ hs1]; exact hj1) hset1]
      · exact Tilemap.Observe_set_other t1 c1 b t2 c2 j hl1 hj1 hjb hset2

theorem set_get_last_write_wins_witness :
    (Tilemap.Observe demoSeq.1 demoSeq.2 (1, 2) = some (some bmainDemo)) ∧
    (Tilemap.Observe demoTwice.1 demoTwice.2 (1, 2) =
      Tilemap.Observe demoOnce.1 demoOnce.2 (1, 2)) :=
  ⟨set_get_last_write_wins.1 demoMap c0 (1, 2) [b0demo] [b2demo] bmainDemo
      demoSeq.1 demoSeq.2 demoMap_linked (by decide) rfl (by decide) rfl,
   set_get_last_write_wins.2 demoMap c0 bmainDemo demoOnce.1 demoOnce.2
      demoTwice.1 demoTwice.2 demoMap_linked rfl rfl (1, 2)⟩

/-- Claim C2: `fill_rect` over an in-map inclusive rectangle produces
exactly the state of the `set`-per-coordinate loop, and afterwards every
cell of the area observes the tile built from the builder at that cell. -/
theorem fill_rect_eq_set_loop :
    ∀ (t : Tilemap) (c : CommandsState) (area : FillArea) (b : TileBuilder),
      t.Linked c → area.dest.1 < t.size.1 → area.dest.2 < t.size.2 →
      t.fill_rect c area b = t.setEachSpec c area b ∧
      (∀ t1 c1, t.fill_rect c area b = some (t1, c1) →
        ∀ coord ∈ area.coords, t1.Observe c1 coord =
          some (some { b with index := coord })) := by
  intro t c area b h hd1 hd2
  have hin : ∀ coord ∈ area.coords, t.is_out_of_tilemap_uvec coord = false := by
    intro coord hc
    obtain ⟨_, hx, _, hy⟩ := area.coords_mem hc
    exact (t.is_out_false_iff coord).2 ⟨by omega, by omega⟩
  have heq : t.fill_rect c area b = t.setEachSpec c area b :=
    Tilemap.fillRectAux_eq_setEachAux b area.coords t c h hin
  refine ⟨heq, ?_⟩
  intro t1 c1 hfill coord hcoord
  rw [heq, Tilemap.setEachSpec, Tilemap.setEachAux_eq_applySets] at hfill
  obtain ⟨s, u, hsu, hnu⟩ := exists_split_last area.coords coord hcoord
  rw [hsu, List.map_append, List.map_cons] at hfill
  exact applySets_lww (s.map fun coord2 => { b with index := coord2 })
    (u.map fun coord2 => { b with index := coord2 })
    { b with index := coord } t c t1 c1 coord h (hin coord hcoord) rfl
    (by
      intro b2 hb2
      obtain ⟨coord2, hcoord2, rfl⟩ := List.mem_map.mp hb2
      intro hcontra
      exact hnu (by simpa using hcontra ▸ hcoord2))
    hfill

def areaDemo : FillArea := ⟨(1, 1), (2, 2)⟩
def bfillDemo : TileBuilder := ⟨(0, 0), 3⟩

/-- Result of `fill_rect` over `areaDemo` on the fresh map. -/
def demoFill : Tilemap × CommandsState :=
  (demoMap.fill_rect c0 areaDemo bfillDemo).getD (demoMap, c0)

theorem fill_rect_eq_set_loop_witness :
    (demoMap.fill_rect c0 areaDemo bfillDemo =
      demoMap.setEachSpec c0 areaDemo bfillDemo) ∧
    Tilemap.Observe demoFill.1 demoFill.2 (2, 1) =
      some (some { bfillDemo with index := (2, 1) }) :=
  ⟨(fill_rect_eq_set_loop demoMap c0 areaDemo bfillDemo demoMap_linked
      (by decide) (by decide)).1,
   (fill_rect_eq_set_loop demoMap c0 areaDemo bfillDemo demoMap_linked
      (by decide) (by decide)).2 demoFill.1 demoFill.2 rfl (2, 1) (by decide)⟩

/-- Claim C3: `set` and `remove` at an out-of-bounds coordinate return
without error and leave the tilemap and the command state entirely
unchanged. -/
theorem out_of_bounds_edit_noop :
    ∀ (t : Tilemap) (c : CommandsState) (b : TileBuilder) (i : Nat × Nat),
      t.is_out_of_tilemap_uvec b.index = true →
      t.is_out_of_tilemap_uvec i = true →
      t.set c b = some (t, c) ∧ t.remove c i = some (t, c) := by
  intro t c b i hb hi
  exact ⟨by simp [Tilemap.set, hb], by simp [Tilemap.remove, hi]⟩

theorem out_of_bounds_edit_noop_witness :
    demoMap.set c0 ⟨(4, 0), 3⟩ = some (demoMap, c0) ∧
    demoMap.remove c0 (0, 7) = some (demoMap, c0) :=
  out_of_bounds_edit_noop demoMap c0 ⟨(4, 0), 3⟩ (0, 7) (by decide) (by decide)

/-- Claim C4: `get` is total on every input coordinate of a well-formed
tilemap: it never panics, returning `some r` where the inner option is the
absence/presence signal. -/
theorem get_total :
    ∀ (t : Tilemap) (c : CommandsState) (i : Nat × Nat), t.Linked c →
      ∃ r : Option Entity, t.get i = some r := by
  intro t c i h
  by_cases hout : t.is_out_of_tilemap_uvec i = true
  · exact ⟨none, by simp [Tilemap.get, hout]⟩
  · have hin : t.is_out_of_tilemap_uvec i = false := by simpa using hout
    obtain ⟨h1, h2⟩ := (t.is_out_false_iff i).1 hin
    have hidx : t.flatIndex i < t.tiles.length := by
      rw [h.1]; exact t.flatIndex_lt h1 h2
    refine ⟨t.tiles.get ⟨t.flatIndex i, hidx⟩, ?_⟩
    rw [Tilemap.get, hin]
    simp only [Bool.false_eq_true, if_false]
    exact List.get?_eq_get hidx

theorem get_total_witness : ∃ r : Option Entity, demoMap.get (12, 99) = some r :=
  get_total demoMap c0 (12, 99) demoMap_linked

/-- Claim C5: `remove` never errors on a well-formed tilemap, afterwards the
coordinate reads absent, and removing an absent tile leaves the whole
state unchanged. -/
theorem remove_then_absent :
    ∀ (t : Tilemap) (c : CommandsState) (i : Nat × Nat), t.Linked c →
      ∃ t1 c1, t.remove c i = some (t1, c1) ∧ t1.get i = some none ∧
        (t.get i = some none → (t1, c1) = (t, c)) := by
  intro t c i h
  by_cases hout : t.is_out_of_tilemap_uvec i = true
  · refine ⟨t, c, ?_, ?_, fun _ => rfl⟩
    · simp [Tilemap.remove, hout]
    · simp [Tilemap.get, hout]
  · have hin : t.is_out_of_tilemap_uvec i = false := by simpa using hout
    obtain ⟨h1, h2⟩ := (t.is_out_false_iff i).1 hin
    have hidx : t.flatIndex i < t.tiles.length := by
      rw [h.1]; exact t.flatIndex_lt h1 h2
    obtain ⟨oe, hoe⟩ : ∃ oe, t.tiles.get? (t.flatIndex i) = some oe :=
      ⟨_, List.get?_eq_get hidx⟩
    have hget : t.get i = some oe := by
      rw [Tilemap.get, hin]
      simpa [Tilemap.get_unchecked] using hoe
    cases oe with
    | none =>
      refine ⟨t, c, ?_, hget, fun _ => rfl⟩
      rw [Tilemap.remove, hin]
      simp only [Bool.false_eq_true, if_false, hget]
    | some e =>
      refine ⟨{ t with tiles := t.tiles.set (t.flatIndex i) none },
        c.despawn e, ?_, ?_, ?_⟩
      · rw [Tilemap.remove, hin]
        simp only [Bool.false_eq_true, if_false, hget]
        rw [Tilemap.remove_unchecked]
        simp only [hoe]
      · rw [Tilemap.get,
          Tilemap.is_out_congr { t with tiles := t.tiles.set (t.flatIndex i) none } t _ rfl, hin]
        simp only [Bool.false_eq_true, if_false]
        rw [Tilemap.get_unchecked,
          Tilemap.flatIndex_congr { t with tiles := t.tiles.set (t.flatIndex i) none } t _ rfl]
        show (t.tiles.set (t.flatIndex i) none).get? (t.flatIndex i) = some none
        rw [List.get?_eq_getElem?]
        exact List.getElem?_set_eq_of_lt _ hidx
      · intro habs
        rw [hget] at habs
        simp at habs

theorem remove_then_absent_witness :
    ∃ t1 c1, demoOnce.1.remove demoOnce.2 (1, 2) = some (t1, c1) ∧
      t1.get (1, 2) = some none ∧
      (demoOnce.1.get (1, 2) = some none → (t1, c1) = (demoOnce.1, demoOnce.2)) :=
  remove_then_absent demoOnce.1 demoOnce.2 (1, 2)
    (Tilemap.set_props demoMap_linked
      (show demoMap.set c0 bmainDemo = some (demoOnce.1, demoOnce.2) by rfl)).2.1

/-- Claim C6: replacing an existing tile despawns exactly the previous
entity first, stores a freshly spawned entity carrying the new builder's
record at the cell, and leaves every other cell unchanged. -/
theorem set_replaces_and_despawns :
    ∀ (t : Tilemap) (c : CommandsState) (b : TileBuilder) (prev : Entity),
      t.Linked c → t.get b.index = some (some prev) →
      ∃ t1 c1, t.set c b = some (t1, c1) ∧
        c1.despawned = prev :: c.despawned ∧
        c1.recordOf c.counter = some b ∧
        t1.tiles.get? (t.flatIndex b.index) = some (some c.counter) ∧
        (∀ j, j ≠ t.flatIndex b.index → t1.tiles.get? j = t.tiles.get? j) := by
  intro t c b prev h hget
  have hin : t.is_out_of_tilemap_uvec b.index = false := by
    by_contra hcontra
    have : t.is_out_of_tilemap_uvec b.index = true := by
      simpa using hcontra
    rw [Tilemap.get, this] at hget
    simp at hget
  obtain ⟨h1, h2⟩ := (t.is_out_false_iff b.index).1 hin
  have hidx : t.flatIndex b.index < t.tiles.length := by
    rw [h.1]; exact t.flatIndex_lt h1 h2
  have hflat : t.tiles.get? (t.flatIndex b.index) = some (some prev) := by
    rw [Tilemap.get, hin] at hget
    simpa [Tilemap.get_unchecked] using hget
  refine ⟨{ t with tiles := t.tiles.set (t.flatIndex b.index) (some c.counter) },
    { counter := c.counter + 1,
      spawnedTiles := (c.counter, b) :: c.spawnedTiles,
      despawned := prev :: c.despawned }, ?_, rfl, ?_, ?_, ?_⟩
  · rw [t.set_eq_cases c b h.1 hin, hflat]
  · simp [CommandsState.recordOf, List.lookup]
  · show (t.tiles.set (t.flatIndex b.index) (some c.counter)).get?
      (t.flatIndex b.index) = some (some c.counter)
    rw [List.get?_eq_getElem?]
    exact List.getElem?_set_eq_of_lt _ hidx
  · intro j hj
    show (t.tiles.set (t.flatIndex b.index) (some c.counter)).get? j =
      t.tiles.get? j
    rw [List.get?_eq_getElem?, List.get?_eq_getElem?]
    exact List.getElem?_set_ne (Ne.symm hj)

theorem set_replaces_and_despawns_witness :
    ∃ t1 c1, demoOnce.1.set demoOnce.2 ⟨(1, 2), 42⟩ = some (t1, c1) ∧
      c1.despawned = 0 :: demoOnce.2.despawned ∧
      c1.recordOf demoOnce.2.counter = some ⟨(1, 2), 42⟩ ∧
      t1.tiles.get? (demoOnce.1.flatIndex (1, 2)) =
        some (some demoOnce.2.counter) ∧
      (∀ j, j ≠ demoOnce.1.flatIndex (1, 2) →
        t1.tiles.get? j = demoOnce.1.tiles.get? j) :=
  set_replaces_and_despawns demoOnce.1 demoOnce.2 ⟨(1, 2), 42⟩ 0
    (Tilemap.set_props demoMap_linked
      (show demoMap.set c0 bmainDemo = some (demoOnce.1, demoOnce.2) by rfl)).2.1
    (by decide)

/-- The isometric coordinate-to-world formula as the specification states
it (section 4.5): `world.x = (cell.x - cell.y)/2 * render_size.x + t.x`,
`world.y = (cell.x + cell.y + 1)/2 * render_size.y + t.y`. -/
def isoSpecWorld (i : Nat × Nat) (renderSize translation : ℚ × ℚ) : ℚ × ℚ :=
  (((i.1 : ℚ) - (i.2 : ℚ)) / 2 * renderSize.1 + translation.1,
   ((i.1 : ℚ) + (i.2 : ℚ) + 1) / 2 * renderSize.2 + translation.2)

/-- Claim C7: on an isometric-diamond tilemap `index_to_world` computes
exactly the spec's formula; with render size (32,16) and zero translation,
cell (0,0) maps to (0,8) and cell (1,0) maps to (16,16). -/
theorem index_to_world_isometric :
    ∀ (t : Tilemap) (i : Nat × Nat), t.tileType = TileType.isometricDiamond →
      t.index_to_world i = isoSpecWorld i t.tileRenderSize t.translation ∧
      (t.tileRenderSize = (32, 16) → t.translation = (0, 0) →
        t.index_to_world (0, 0) = (0, 8) ∧
        t.index_to_world (1, 0) = (16, 16)) := by
  intro t i hty
  constructor
  · simp [Tilemap.index_to_world, isoSpecWorld, hty]
  · intro hrs htr
    constructor
    · simp [Tilemap.index_to_world, hty, hrs, htr]
      norm_num
    · simp [Tilemap.index_to_world, hty, hrs, htr]
      norm_num

/-- A concrete isometric tilemap with render size (32,16). -/
def isoDemoMap : Tilemap :=
  { demoMap with tileType := .isometricDiamond, tileRenderSize := (32, 16) }

/-! ### The LDtk loader layer (`src/ldtk/layer/mod.rs`)

The loader targets a newer revision of the tile data model
(`TileBuilder` with a `texture : TileTexture` field); those tile types live
in a `tilemap/tile.rs` revision that is not among the provided sources and
are modelled from the spec here (section 3: a tile layer carries a
texture index or an animation reference, flip bits, and a stack
position). -/

namespace Ldtk

/-- Signed cell coordinate (`IVec2`). -/
abbrev IVec2 := Int × Int

/-- Modelled from the spec: one stacked sub-tile layer (texture index and
flip bits). -/
structure TileLayer where
  textureIndex : Nat
  flip : Nat
  deriving Repr, DecidableEq

def TileLayer.new : TileLayer := ⟨0, 0⟩

def TileLayer.with_texture_index (l : TileLayer) (i : Nat) : TileLayer :=
  { l with textureIndex := i }

def TileLayer.with_flip_raw (l : TileLayer) (f : Nat) : TileLayer :=
  { l with flip := f }

/-- Modelled from the spec: a tile's visual is either a stack of static
texture layers or an animation reference. -/
inductive TileTexture where
  | static (layers : List TileLayer)
  | animated (animation : Nat)
  deriving Repr, DecidableEq

/-- Modelled from the spec: the newer-revision `TileBuilder` used by the
LDtk loader (texture stack or animation, plus a color tint). -/
structure TileBuilder where
  texture : TileTexture
  color : ℚ × ℚ × ℚ × ℚ
  deriving Repr, DecidableEq

def TileBuilder.new : TileBuilder := ⟨.static [], (1, 1, 1, 1)⟩

def TileBuilder.with_color (b : TileBuilder) (c : ℚ × ℚ × ℚ × ℚ) : TileBuilder :=
  { b with color := c }

def TileBuilder.with_animation (b : TileBuilder) (a : Nat) : TileBuilder :=
  { b with texture := .animated a }

/-- Modelled from the spec: place a layer at stack position `i`, padding
the stack with default layers if it is shorter. -/
def TileBuilder.with_layer (b : TileBuilder) (i : Nat) (l : TileLayer) : TileBuilder :=
  match b.texture with
  | .static ls =>
      let padded := ls ++ List.replicate (i + 1 - ls.length) TileLayer.new
      { b with texture := .static (padded.set i l) }
  | .animated _ => b

/-- Replacement insert into an association-list map (`HashMap::insert`). -/
def alistInsert {κ α : Type} [DecidableEq κ] (l : List (κ × α)) (k : κ) (v : α) :
    List (κ × α) :=
  (k, v) :: l.filter fun p => p.1 ≠ k

/-- Rust `TileBuffer` (`src/tilemap/buffers.rs`, not among the provided
sources): an AABB plus a cell-keyed tile map, modelled as an association
list. -/
structure TileBuffer where
  aabb : IVec2 × IVec2
  tiles : List (IVec2 × TileBuilder)
  deriving Repr, DecidableEq

/-- The texture data `set_tile` reads: `texture.desc.tile_size`. -/
structure TilemapTexture where
  tileSize : Nat × Nat
  deriving Repr, DecidableEq

/-- Rust `TilemapPattern` (serializing module, not among the provided sources):
label, tile buffer and animation table, the fields `set_tile` touches.
The animation table is a list of registered animations; `register` returns
the new slot index. -/
structure TilemapPattern where
  label : Option Nat
  tiles : TileBuffer
  animations : List Nat
  deriving Repr, DecidableEq

/-- Rust `animations.register(anim)`: append and return the slot handle. -/
def registerAnim (animations : List Nat) (a : Nat) : Nat × List Nat :=
  (animations.length, animations ++ [a])

/-- The fields of the LDtk JSON `LayerInstance` that `set_tile` and
`try_create_new_layer` read (identifiers kept as opaque numerals). -/
structure LayerInstance where
  identifier : Nat
  iid : Nat
  tilesetDefUid : Option Int
  cWid : Int
  cHei : Int
  opacity : ℚ
  deriving Repr, DecidableEq

/-- The fields of the LDtk JSON `TileInstance` that `set_tile` reads. -/
structure TileInstance where
  /-- Rust `px`: pixel position `[x, y]`. -/
  px : Int × Int
  /-- Rust `flip` bits. -/
  flip : Nat
  /-- Rust `tile_id`. -/
  tileId : Int
  alpha : ℚ
  deriving Repr, DecidableEq

/-- Rust `LdtkLoadConfig`: the `animation_mapper` from texture index to the
animation to register (resources revision not among the provided
sources). -/
structure LdtkLoadConfig where
  animation_mapper : List (Nat × Nat)
  deriving Repr, DecidableEq

/-- Rust `LdtkPatterns`: the `pattern_size` that `set_tile` reads in
`MapPattern` mode. -/
structure LdtkPatterns where
  pattern_size : Nat × Nat
  deriving Repr, DecidableEq

/-- Rust `LdtkLoaderMode` (`src/ldtk/mod.rs`). -/
inductive LdtkLoaderMode where
  | tilemap
  | mapPattern
  deriving Repr, DecidableEq

/-- Rust `LdtkLayers` (`src/ldtk/layer/mod.rs` lines 110-126), restricted to
the fields its tile-placement and z-assignment code paths read. A layer
slot is `(pattern, texture, iid, opacity)`. -/
structure LdtkLayers where
  layers : List (Option (TilemapPattern × TilemapTexture × Nat × ℚ))
  tilesets : List (Int × TilemapTexture)
  translation : ℚ × ℚ
  base_z_index : Int
  deriving Repr, DecidableEq

/-- The `panic!`s that `set_tile`/`try_create_new_layer` can raise,
as structured diagnostics. -/
inductive SetTileError where
  /-- Rust `layer.tileset_def_uid.unwrap()` on `None`. -/
  | missingTilesetUid
  /-- Rust `self.tilesets.get(&uid)...unwrap()` on a missing tileset. -/
  | missingTileset (uid : Int)
  /-- Rust `self.layers[layer_index]` out of `Vec` range. -/
  | layerIndexOutOfRange (layerIndex : Nat)
  /-- Rust `"Trying to insert multiple layers into a animated tile at {tile_index}!"` -/
  | animatedConflict (tileIndex : IVec2)
  deriving Repr, DecidableEq

/-- Rust `LdtkLayers::try_create_new_layer` (layer/mod.rs lines 208-247). -/
def LdtkLayers.try_create_new_layer (self : LdtkLayers) (layerIndex : Nat)
    (layer : LayerInstance) : Except SetTileError LdtkLayers :=
  match layer.tilesetDefUid with
  | none => .error .missingTilesetUid
  | some uid =>
    match self.tilesets.lookup uid with
    | none => .error (.missingTileset uid)
    | some tileset =>
      match self.layers.get? layerIndex with
      | none => .error (.layerIndexOutOfRange layerIndex)
      | some (some _) => .ok self
      | some none =>
        let aabb : IVec2 × IVec2 :=
          ((0, -layer.cHei + 1), (layer.cWid - 1, 0))
        let pat : TilemapPattern :=
          { label := some layer.identifier,
            tiles := { aabb := aabb, tiles := [] },
            animations := [] }
        let layers2 := self.layers.set layerIndex (some (pat, tileset, layer.iid, layer.opacity))
        .ok { self with layers := layers2 }

/-- The `tile_index` computation of `set_tile` (layer/mod.rs lines
166-175). Integer division is Rust's truncating `/` (`Int.tdiv`). -/
def tileIndexOf (texture : TilemapTexture) (tile : TileInstance)
    (patterns : LdtkPatterns) (mode : LdtkLoaderMode) : IVec2 :=
  let tile_size := texture.tileSize
  (Int.tdiv tile.px.1 (tile_size.1 : Int),
   match mode with
   | .tilemap => Int.tdiv (-tile.px.2) (tile_size.2 : Int) - 1
   | .mapPattern =>
       (patterns.pattern_size.2 : Int) -
         Int.tdiv tile.px.2 (tile_size.2 : Int) - 1)

/-- Rust `LdtkLayers::set_tile` (layer/mod.rs lines 154-202).
`tile.tile_id as u32` is `toNat` on the (non-negative) tile id. -/
def LdtkLayers.set_tile (self : LdtkLayers) (layerIndex : Nat)
    (layer : LayerInstance) (tile : TileInstance) (config : LdtkLoadConfig)
    (patterns : LdtkPatterns) (mode : LdtkLoaderMode) :
    Except SetTileError LdtkLayers :=
  match self.try_create_new_layer layerIndex layer with
  | .error e => .error e
  | .ok self =>
  match self.layers.get? layerIndex with
  | none => .error (.layerIndexOutOfRange layerIndex)
  | some none => .error (.layerIndexOutOfRange layerIndex)
  | some (some (pattern, texture, iid, opacity)) =>
    let tile_index : IVec2 := tileIndexOf texture tile patterns mode
    let texture_index := tile.tileId.toNat
    match pattern.tiles.tiles.lookup tile_index with
    | some ser_tile =>
      match ser_tile.texture with
      | .animated _ => .error (.animatedConflict tile_index)
      | .static tile_layers =>
        let pushed := tile_layers ++ [TileLayer.new.with_texture_index texture_index]
        let updated := { ser_tile with texture := TileTexture.static pushed }
        let buf2 := { pattern.tiles with tiles := alistInsert pattern.tiles.tiles tile_index updated }
        let pattern2 := { pattern with tiles := buf2 }
        let layers2 := self.layers.set layerIndex (some (pattern2, texture, iid, opacity))
        .ok { self with layers := layers2 }
    | none =>
      let builder := TileBuilder.new.with_color (1, 1, 1, tile.alpha)
      match config.animation_mapper.lookup texture_index with
      | some anim =>
        let (handle, anims) := registerAnim pattern.animations anim
        let builder2 := builder.with_animation handle
        let buf2 := { pattern.tiles with tiles := alistInsert pattern.tiles.tiles tile_index builder2 }
        let pattern2 := { pattern with animations := anims, tiles := buf2 }
        let layers2 := self.layers.set layerIndex (some (pattern2, texture, iid, opacity))
        .ok { self with layers := layers2 }
      | none =>
        let builder2 := builder.with_layer 0
          ((TileLayer.new.with_texture_index texture_index).with_flip_raw tile.flip)
        let buf2 := { pattern.tiles with tiles := alistInsert pattern.tiles.tiles tile_index builder2 }
        let pattern2 := { pattern with tiles := buf2 }
        let layers2 := self.layers.set layerIndex (some (pattern2, texture, iid, opacity))
        .ok { self with layers := layers2 }

/-- The (layer index, z_index) assignment that `LdtkLayers::apply_all`
(layer/mod.rs lines 279-300) gives the spawned tilemaps:
`.drain(..).enumerate().filter_map(...)` over the layer slots, with
`z_index: self.base_z_index - index as i32 - 1`. -/
def LdtkLayers.tilemapZIndices (self : LdtkLayers) : List (Nat × Int) :=
  self.layers.enum.filterMap fun p =>
    p.2.map fun _ => (p.1, self.base_z_index - (p.1 : Int) - 1)

end Ldtk

/-- Modelled from the spec: the queue stage (`src/render/queue.rs`, not
among the provided sources) sorts draw submissions by z, a higher z_index
being drawn later and therefore on top (spec section 4.6). -/
def drawnLaterThan (za zb : Int) : Prop := zb < za

theorem index_to_world_isometric_witness :
    isoDemoMap.index_to_world (5, 3) =
      isoSpecWorld (5, 3) isoDemoMap.tileRenderSize isoDemoMap.translation ∧
    (isoDemoMap.tileRenderSize = (32, 16) → isoDemoMap.translation = (0, 0) →
      isoDemoMap.index_to_world (0, 0) = (0, 8) ∧
      isoDemoMap.index_to_world (1, 0) = (16, 16)) :=
  index_to_world_isometric isoDemoMap (5, 3) rfl

/-- Claim C8, amended: inserting into a cell that already holds an
animated tile fails loudly with a diagnostic carrying the cell coordinate;
inserting an animation-mapped tile into a cell that already holds a plain
(static) tile does not fail - the incoming tile is appended to the stack
as a plain texture layer. -/
theorem set_tile_animated_conflict :
    ∀ (self : Ldtk.LdtkLayers) (layerIndex : Nat) (layer : Ldtk.LayerInstance)
      (tile : Ldtk.TileInstance) (config : Ldtk.LdtkLoadConfig)
      (patterns : Ldtk.LdtkPatterns) (mode : Ldtk.LdtkLoaderMode) (uid : Int)
      (ts : Ldtk.TilemapTexture) (pattern : Ldtk.TilemapPattern)
      (texture : Ldtk.TilemapTexture) (iid : Nat) (opacity : ℚ)
      (serTile : Ldtk.TileBuilder),
      layer.tilesetDefUid = some uid →
      self.tilesets.lookup uid = some ts →
      self.layers.get? layerIndex = some (some (pattern, texture, iid, opacity)) →
      pattern.tiles.tiles.lookup (Ldtk.tileIndexOf texture tile patterns mode) =
        some serTile →
      ((∀ a, serTile.texture = .animated a →
          self.set_tile layerIndex layer tile config patterns mode =
            .error (.animatedConflict (Ldtk.tileIndexOf texture tile patterns mode))) ∧
       (∀ ls, serTile.texture = .static ls →
          ∃ self2, self.set_tile layerIndex layer tile config patterns mode =
              .ok self2 ∧
            ∃ pattern2, self2.layers.get? layerIndex =
                some (some (pattern2, texture, iid, opacity)) ∧
              pattern2.tiles.tiles.lookup
                  (Ldtk.tileIndexOf texture tile patterns mode) =
                some { serTile with texture := Ldtk.TileTexture.static (ls ++ [Ldtk.TileLayer.new.with_texture_index tile.tileId.toNat]) })) := by
  intro self layerIndex layer tile config patterns mode uid ts pattern texture
    iid opacity serTile huid hts hlayer hlook
  have hcreate : self.try_create_new_layer layerIndex layer = .ok self := by
    simp only [Ldtk.LdtkLayers.try_create_new_layer, huid, hts, hlayer]
  have hlt : layerIndex < self.layers.length := by
    rcases List.get?_eq_some.1 hlayer with ⟨hl, _⟩
    exact hl
  constructor
  · intro a hanim
    simp only [Ldtk.LdtkLayers.set_tile, hcreate, hlayer, hlook, hanim]
  · intro ls hstatic
    have hmain : self.set_tile layerIndex layer tile config patterns mode = .ok { self with layers := self.layers.set layerIndex (some ({ pattern with tiles := { pattern.tiles with tiles := Ldtk.alistInsert pattern.tiles.tiles (Ldtk.tileIndexOf texture tile patterns mode) { serTile with texture := Ldtk.TileTexture.static (ls ++ [Ldtk.TileLayer.new.with_texture_index tile.tileId.toNat]) } } }, texture, iid, opacity)) } := by
      simp only [Ldtk.LdtkLayers.set_tile, hcreate, hlayer, hlook, hstatic]
    refine ⟨_, hmain, { pattern with tiles := { pattern.tiles with tiles := Ldtk.alistInsert pattern.tiles.tiles (Ldtk.tileIndexOf texture tile patterns mode) { serTile with texture := Ldtk.TileTexture.static (ls ++ [Ldtk.TileLayer.new.with_texture_index tile.tileId.toNat]) } } }, ?_, ?_⟩
    · rw [List.get?_eq_getElem?]
      exact List.getElem?_set_eq_of_lt _ hlt
    · simp [Ldtk.alistInsert, List.lookup]

namespace Ldtk

/-- Fixtures: a 16×16-tile tileset texture. -/
def demoTex : TilemapTexture := ⟨(16, 16)⟩

/-- A plain (static, single texture layer) tile. -/
def plainTileDemo : TileBuilder :=
  TileBuilder.new.with_layer 0 (TileLayer.new.with_texture_index 4)

/-- An animated tile. -/
def animTileDemo : TileBuilder := TileBuilder.new.with_animation 0

/-- Pattern holding an animated tile at cell (0, -1). -/
def patternAnimDemo : TilemapPattern :=
  ⟨some 0, ⟨((0, 0), (0, 0)), [((0, -1), animTileDemo)]⟩, [5]⟩

/-- Pattern holding a plain tile at cell (0, -1). -/
def patternStaticDemo : TilemapPattern :=
  ⟨some 1, ⟨((0, 0), (0, 0)), [((0, -1), plainTileDemo)]⟩, []⟩

/-- One-layer level whose only cell holds an animated tile. -/
def layersAnimDemo : LdtkLayers :=
  ⟨[some (patternAnimDemo, demoTex, 0, 1)], [(7, demoTex)], (0, 0), 0⟩

/-- One-layer level whose only cell holds a plain tile. -/
def layersStaticDemo : LdtkLayers :=
  ⟨[some (patternStaticDemo, demoTex, 0, 1)], [(7, demoTex)], (0, 0), 0⟩

def layerInstDemo : LayerInstance := ⟨0, 0, some 7, 4, 4, 1⟩

/-- A tile at pixel (0,0): its cell index in Tilemap mode is (0, -1). -/
def tileInstDemo : TileInstance := ⟨(0, 0), 0, 9, 1⟩

/-- Config whose animation mapper maps texture index 9 to an animation. -/
def configAnimDemo : LdtkLoadConfig := ⟨[(9, 3)]⟩

def patternsCfgDemo : LdtkPatterns := ⟨(4, 4)⟩

end Ldtk

theorem set_tile_animated_conflict_witness :
    (Ldtk.LdtkLayers.set_tile Ldtk.layersAnimDemo 0 Ldtk.layerInstDemo
        Ldtk.tileInstDemo Ldtk.configAnimDemo Ldtk.patternsCfgDemo .tilemap =
      .error (.animatedConflict (0, -1))) ∧
    (∃ self2, Ldtk.LdtkLayers.set_tile Ldtk.layersStaticDemo 0 Ldtk.layerInstDemo
        Ldtk.tileInstDemo Ldtk.configAnimDemo Ldtk.patternsCfgDemo .tilemap =
          .ok self2 ∧
      ∃ pattern2, self2.layers.get? 0 =
          some (some (pattern2, Ldtk.demoTex, 0, 1)) ∧
        pattern2.tiles.tiles.lookup (0, -1) =
          some { Ldtk.plainTileDemo with texture := Ldtk.TileTexture.static ([Ldtk.TileLayer.new.with_texture_index 4] ++ [Ldtk.TileLayer.new.with_texture_index 9]) }) := by
  constructor
  · exact (set_tile_animated_conflict Ldtk.layersAnimDemo 0 Ldtk.layerInstDemo
      Ldtk.tileInstDemo Ldtk.configAnimDemo Ldtk.patternsCfgDemo .tilemap 7
      Ldtk.demoTex Ldtk.patternAnimDemo Ldtk.demoTex 0 1 Ldtk.animTileDemo
      rfl rfl rfl (by decide)).1 0 rfl
  · exact (set_tile_animated_conflict Ldtk.layersStaticDemo 0 Ldtk.layerInstDemo
      Ldtk.tileInstDemo Ldtk.configAnimDemo Ldtk.patternsCfgDemo .tilemap 7
      Ldtk.demoTex Ldtk.patternStaticDemo Ldtk.demoTex 0 1 Ldtk.plainTileDemo
      rfl rfl rfl (by decide)).2
      [Ldtk.TileLayer.new.with_texture_index 4] rfl

/-- Claim C8, counterexample to the claim as stated: adding an
animation-mapped tile (texture index 9, mapped by the config's animation
mapper) to a cell that already holds a plain texture tile does NOT fail:
`set_tile` returns success. -/
theorem set_tile_anim_onto_static_succeeds :
    (Ldtk.LdtkLayers.set_tile Ldtk.layersStaticDemo 0 Ldtk.layerInstDemo
        Ldtk.tileInstDemo Ldtk.configAnimDemo Ldtk.patternsCfgDemo
        .tilemap).isOk = true ∧
    Ldtk.configAnimDemo.animation_mapper.lookup
      Ldtk.tileInstDemo.tileId.toNat = some 3 := by
  constructor
  · decide
  · decide

/-- A two-layer level (both slots populated). -/
def ldtkTwoLayersDemo : Ldtk.LdtkLayers :=
  ⟨[some (Ldtk.patternStaticDemo, Ldtk.demoTex, 0, 1),
    some (Ldtk.patternAnimDemo, Ldtk.demoTex, 1, 1)],
   [(7, Ldtk.demoTex)], (0, 0), 0⟩

/-- Claim C9, amended: `apply_all` assigns the tilemap spawned for layer
slot `index` the z_index `base_z_index - index - 1`; under the z-ordered
draw queue (higher z_index drawn later/on top), the tilemap of a LOWER
LDtk layer index is therefore drawn later (on top) of one with a higher
layer index. -/
theorem apply_all_layer_order :
    ∀ (self : Ldtk.LdtkLayers) (i j : Nat) (zi zj : Int),
      (i, zi) ∈ self.tilemapZIndices → (j, zj) ∈ self.tilemapZIndices →
      i < j →
      zi = self.base_z_index - i - 1 ∧ zj = self.base_z_index - j - 1 ∧
        drawnLaterThan zi zj := by
  intro self i j zi zj hi hj hij
  have hmem : ∀ (k : Nat) (z : Int), (k, z) ∈ self.tilemapZIndices →
      z = self.base_z_index - k - 1 := by
    intro k z hm
    simp only [Ldtk.LdtkLayers.tilemapZIndices, List.mem_filterMap] at hm
    obtain ⟨⟨n, oe⟩, _, hmap⟩ := hm
    cases oe with
    | none => simp at hmap
    | some x =>
      simp only [Option.map_some, Option.some.injEq, Prod.mk.injEq] at hmap
      obtain ⟨rfl, rfl⟩ := hmap
      rfl
  have hzi := hmem i zi hi
  have hzj := hmem j zj hj
  refine ⟨hzi, hzj, ?_⟩
  show zj < zi
  omega

theorem apply_all_layer_order_witness :
    ((-1 : Int) = ldtkTwoLayersDemo.base_z_index - 0 - 1) ∧
    ((-2 : Int) = ldtkTwoLayersDemo.base_z_index - 1 - 1) ∧
    drawnLaterThan (-1) (-2) :=
  apply_all_layer_order ldtkTwoLayersDemo 0 1 (-1) (-2) (by decide) (by decide)
    (by decide)

/-- Claim C9, counterexample to the claim as stated: in a two-layer level
with base z-index 0, `apply_all` gives the higher layer index (1) the
LOWER z_index (-2), so under the z-ordered queue its tilemap is NOT drawn
later than the layer-0 tilemap. -/
theorem apply_all_higher_index_not_later :
    Ldtk.LdtkLayers.tilemapZIndices ldtkTwoLayersDemo = [(0, -1), (1, -2)] ∧
    ¬ drawnLaterThan (-2) (-1) := by
  refine ⟨by decide, fun h => absurd (show (-1 : Int) < -2 from h) (by decide)⟩

/-- Claim C10: with the safety check enabled, `TilemapBuilder::build` panics
whenever the computed render-chunk count exceeds 100; disabling the check
via `with_disabled_safety_check` makes `build` succeed on the same
inputs. -/
theorem build_safety_check :
    ∀ (b : TilemapBuilder) (c : CommandsState),
      b.safetyCheck = true →
      (calculate_render_chunk_count b.size b.renderChunkSize).1 *
        (calculate_render_chunk_count b.size b.renderChunkSize).2 > 100 →
      b.build c = none ∧
        (b.with_disabled_safety_check.build c).isSome = true := by
  intro b c hsc hcc
  constructor
  · simp [TilemapBuilder.build, hsc, hcc]
  · simp [TilemapBuilder.with_disabled_safety_check, TilemapBuilder.build]

/-- A 400×400 map with the default chunk size 32: 13×13 = 169 chunks. -/
def bigBuilderDemo : TilemapBuilder :=
  TilemapBuilder.new .square (400, 400) (16, 16)

theorem build_safety_check_witness :
    bigBuilderDemo.build c0 = none ∧
      (bigBuilderDemo.with_disabled_safety_check.build c0).isSome = true :=
  build_safety_check bigBuilderDemo c0 rfl (by decide)

end EntiTiles
